import Mathlib

/-!
Shallow embedding of `src/components/thread/visualization.tsx` from the
agent-chat-ui repository: the visualization-descriptor extractor
(`extractVisualizationData`) and the render dispatcher (`Visualization`
with its sub-renderers `ChartVisualization`, `ImageVisualization`,
`TextVisualization`).

JavaScript runtime values are modelled by the inductive `JSValue`;
numbers are rationals plus an explicit `nan` constructor (the source
never exercises float rounding on the claim-relevant paths, so exact
rational arithmetic is the faithful spec-level reading).  `Math.random()`
is modelled by an explicit stream `rand : Nat → ℚ` of draws in `[0,1)`,
one per call, in call order.
-/

set_option maxHeartbeats 1000000

/-- Model of a JavaScript runtime value: `undefined`, `null`, booleans,
finite numbers (as rationals), `NaN`, strings, arrays and plain objects.
Objects are association lists; a duplicate key in a literal overwrites the
earlier one, which the access function mirrors by taking the last binding. -/
inductive JSValue where
  | undefined : JSValue
  | nullv : JSValue
  | bool : Bool → JSValue
  | num : ℚ → JSValue
  | nan : JSValue
  | str : String → JSValue
  | arr : List JSValue → JSValue
  | obj : List (String × JSValue) → JSValue

/-- JavaScript truthiness: `undefined`, `null`, `false`, `0`, `NaN` and the
empty string are falsy; every array and object is truthy. -/
def truthy : JSValue → Bool
  | .undefined => false
  | .nullv => false
  | .bool b => b
  | .num q => if q = 0 then false else true
  | .nan => false
  | .str s => if s = "" then false else true
  | .arr _ => true
  | .obj _ => true

/-- JavaScript `a || b`. -/
def jsOr (a b : JSValue) : JSValue := if truthy a then a else b

/-- Last binding of key `k`, mirroring that a later duplicate property in a
JS object literal (and in `JSON.parse`) overwrites an earlier one. -/
def lookupLast (k : String) : List (String × JSValue) → Option JSValue
  | [] => none
  | p :: ps => match lookupLast k ps with
      | some v => some v
      | none => if p.1 = k then some p.2 else none

/-- Property access `v.k` / `v?.k` / `v[k]`: `undefined` on a missing key
and on every non-object base.  (In JS a plain `.` access on `null`/
`undefined` throws; every such access site in the source is guarded by
`?.` or by a truthiness check, so the total model agrees on reachable
states.) -/
def getField (v : JSValue) (k : String) : JSValue :=
  match v with
  | .obj fs => (lookupLast k fs).getD .undefined
  | _ => .undefined

/-- Strict equality `v === s` against a string literal, as used by the
`switch`/`if` dispatch in the source. -/
def jsEqStr (v : JSValue) (s : String) : Bool :=
  match v with
  | .str t => if t = s then true else false
  | _ => false

/-- JS whitespace for `\s` and for `Number()` trimming (ASCII part; the
exotic Unicode space code points never occur in the claims' inputs). -/
def isJsWs (c : Char) : Bool :=
  c = ' ' || c = '\t' || c = '\n' || c = '\r' || c = Char.ofNat 11 || c = Char.ofNat 12

def digitsVal (ds : List Char) : Nat :=
  ds.foldl (fun a c => a * 10 + (c.toNat - 48)) 0

def isHexDigit (c : Char) : Bool :=
  c.isDigit || ('a' ≤ c && c ≤ 'f') || ('A' ≤ c && c ≤ 'F')

def hexDigitVal (c : Char) : Nat :=
  if c.isDigit then c.toNat - 48
  else if 'a' ≤ c && c ≤ 'f' then c.toNat - 87
  else c.toNat - 55

def hexVal (ds : List Char) : Nat :=
  ds.foldl (fun a c => a * 16 + hexDigitVal c) 0

/-- Unsigned decimal literal `digits [. digits] [e[±]digits]` as accepted by
JS `Number(...)` (also allows `.5` and `5.`).  Returns the value and the
unconsumed rest; a malformed exponent is left unconsumed (the caller's
leftover check then yields NaN, as in JS). -/
def parseUnsignedDec (cs : List Char) : Option (ℚ × List Char) :=
  let intPart := cs.takeWhile Char.isDigit
  let rest1 := cs.dropWhile Char.isDigit
  let (fracPart, rest2) :=
    match rest1 with
    | '.' :: cs2 => (cs2.takeWhile Char.isDigit, cs2.dropWhile Char.isDigit)
    | _ => ([], rest1)
  let hadDot := match rest1 with | '.' :: _ => true | _ => false
  if intPart.isEmpty && fracPart.isEmpty then none
  else
    let mant : ℚ := (digitsVal intPart : ℚ) +
      (digitsVal fracPart : ℚ) / ((10 : ℚ) ^ fracPart.length)
    let restAfterMant := if hadDot then rest2 else rest1
    match restAfterMant with
    | e :: cs3 =>
      if e = 'e' || e = 'E' then
        let (sgn, cs4) : ℚ × List Char :=
          match cs3 with
          | '+' :: cs5 => (1, cs5)
          | '-' :: cs5 => (-1, cs5)
          | _ => (1, cs3)
        let eds := cs4.takeWhile Char.isDigit
        if eds.isEmpty then some (mant, restAfterMant)
        else
          let ex : ℚ := if sgn = 1 then (10 : ℚ) ^ digitsVal eds
            else 1 / ((10 : ℚ) ^ digitsVal eds)
          some (mant * ex, cs4.dropWhile Char.isDigit)
      else some (mant, restAfterMant)
    | [] => some (mant, [])

/-- JS `Number(string)`: trim whitespace, empty trims to `0`, a hex/octal/
binary literal (no sign), or a signed decimal; anything else (including
`Infinity`, which has no rational model and appears in no claim) is NaN. -/
def strToNumber (s : String) : JSValue :=
  let cs := ((s.data.dropWhile isJsWs).reverse.dropWhile isJsWs).reverse
  match cs with
  | [] => .num 0
  | '0' :: x :: ds =>
    if (x = 'x' || x = 'X') && !ds.isEmpty && ds.all isHexDigit then
      .num (hexVal ds : ℚ)
    else if (x = 'b' || x = 'B') && !ds.isEmpty && ds.all (fun c => c = '0' || c = '1') then
      .num (ds.foldl (fun a c => a * 2 + (c.toNat - 48)) 0 : ℚ)
    else if (x = 'o' || x = 'O') && !ds.isEmpty && ds.all (fun c => '0' ≤ c && c ≤ '7') then
      .num (ds.foldl (fun a c => a * 8 + (c.toNat - 48)) 0 : ℚ)
    else
      match parseUnsignedDec cs with
      | some (q, []) => .num q
      | _ => .nan
  | c :: cs2 =>
    let (sgn, body) : ℚ × List Char :=
      if c = '-' then (-1, cs2) else if c = '+' then (1, cs2) else (1, cs)
    match parseUnsignedDec body with
    | some (q, []) => .num (sgn * q)
    | _ => .nan

/-- Decimal rendering of a rational for JS `String(number)`.  Integral
values (the only numbers stringified on any claim path) render exactly as
in JS; for a non-integral value JS prints the shortest round-trip float
decimal, which has no exact rational counterpart, so the raw rational
notation stands in for it. -/
def numToString (q : ℚ) : String :=
  if q.den = 1 then toString q.num else toString q

mutual

/-- JS `String(v)` / string coercion: numbers via `numToString`, arrays via
`Array.prototype.join(",")` (with `null`/`undefined` elements as empty),
plain objects as the tag string. -/
def jsToString : JSValue → String
  | .undefined => "undefined"
  | .nullv => "null"
  | .bool b => if b then "true" else "false"
  | .num q => numToString q
  | .nan => "NaN"
  | .str s => s
  | .arr xs => String.intercalate "," (jsJoinParts xs)
  | .obj _ => "[object Object]"

/-- Per-element strings for `Array.prototype.join`: `null` and `undefined`
join as the empty string. -/
def jsJoinParts : List JSValue → List String
  | [] => []
  | .undefined :: xs => "" :: jsJoinParts xs
  | .nullv :: xs => "" :: jsJoinParts xs
  | v :: xs => jsToString v :: jsJoinParts xs

end

/-- JS `ToNumber`: `null ↦ 0`, `undefined ↦ NaN`, booleans to `0`/`1`,
strings via `strToNumber`, arrays via their string coercion (`ToPrimitive`
of a plain array is its join), plain objects to NaN (their string form
`"[object Object]"` never parses). -/
def jsToNumber : JSValue → JSValue
  | .undefined => .nan
  | .nullv => .num 0
  | .bool b => .num (if b then 1 else 0)
  | .num q => .num q
  | .nan => .nan
  | .str s => strToNumber s
  | .arr xs => strToNumber (jsToString (.arr xs))
  | .obj _ => .nan

/-- JS property-key coercion for a computed key `obj[k]`. -/
def propKey (v : JSValue) : String := jsToString v

/-- JS subtraction: numeric coercion of both sides, NaN-propagating. -/
def jsSub (a b : JSValue) : JSValue :=
  match jsToNumber a, jsToNumber b with
  | .num x, .num y => .num (x - y)
  | _, _ => .nan

/-- JS multiplication: numeric coercion of both sides, NaN-propagating. -/
def jsMul (a b : JSValue) : JSValue :=
  match jsToNumber a, jsToNumber b with
  | .num x, .num y => .num (x * y)
  | _, _ => .nan

/-- JS `ToPrimitive` as it applies here: plain arrays and objects convert
via their string form; primitives are themselves. -/
def toPrimitive (v : JSValue) : JSValue :=
  match v with
  | .arr xs => .str (jsToString (.arr xs))
  | .obj fs => .str (jsToString (.obj fs))
  | p => p

/-- JS addition: string concatenation when either primitive side is a
string, numeric addition (NaN-propagating) otherwise. -/
def jsAdd (a b : JSValue) : JSValue :=
  let pa := toPrimitive a
  let pb := toPrimitive b
  match pa, pb with
  | .str sa, _ => .str (sa ++ jsToString pb)
  | _, .str sb => .str (jsToString pa ++ sb)
  | _, _ =>
    match jsToNumber pa, jsToNumber pb with
    | .num x, .num y => .num (x + y)
    | _, _ => .nan

/-- JS index access `v[i]` with a numeric literal index: array element
(`undefined` out of range), single character of a string, `undefined` on
other primitives. -/
def jsIndex (v : JSValue) (i : Nat) : JSValue :=
  match v with
  | .arr xs => xs.getD i .undefined
  | .str s => if i < s.data.length then .str (String.mk [s.data.getD i ' ']) else .undefined
  | _ => .undefined

/-- Loose `x != null`: false exactly on `null` and `undefined`. -/
def jsNonNull (v : JSValue) : Bool :=
  match v with
  | .undefined => false
  | .nullv => false
  | _ => true

/-- Opening curly brace character. -/
def obrace : Char := Char.ofNat 123

/-- Closing curly brace character. -/
def cbrace : Char := Char.ofNat 125

/-- JSON whitespace (space, tab, line feed, carriage return). -/
def isJsonWs (c : Char) : Bool :=
  c = ' ' || c = '\t' || c = '\n' || c = '\r'

/-- Body of a JSON string literal after the opening quote, with the usual
escapes; rejects unescaped control characters, as `JSON.parse` does.
Returns the decoded string and the rest after the closing quote. -/
def jsonStringBody : Nat → List Char → List Char → Option (String × List Char)
  | 0, _, _ => none
  | _ + 1, _, [] => none
  | fuel + 1, acc, c :: rest =>
    if c = '"' then some (String.mk acc.reverse, rest)
    else if c = '\\' then
      match rest with
      | [] => none
      | e :: rest2 =>
        if e = '"' then jsonStringBody fuel ('"' :: acc) rest2
        else if e = '\\' then jsonStringBody fuel ('\\' :: acc) rest2
        else if e = '/' then jsonStringBody fuel ('/' :: acc) rest2
        else if e = 'b' then jsonStringBody fuel (Char.ofNat 8 :: acc) rest2
        else if e = 'f' then jsonStringBody fuel (Char.ofNat 12 :: acc) rest2
        else if e = 'n' then jsonStringBody fuel ('\n' :: acc) rest2
        else if e = 'r' then jsonStringBody fuel ('\r' :: acc) rest2
        else if e = 't' then jsonStringBody fuel ('\t' :: acc) rest2
        else if e = 'u' then
          match rest2 with
          | a :: b :: c2 :: d :: rest3 =>
            if isHexDigit a && isHexDigit b && isHexDigit c2 && isHexDigit d then
              jsonStringBody fuel (Char.ofNat (hexVal [a, b, c2, d]) :: acc) rest3
            else none
          | _ => none
        else none
    else if c.toNat < 32 then none
    else jsonStringBody fuel (c :: acc) rest

/-- Optional fraction and exponent of a JSON number, applied to the value
of the integer part. -/
def jsonFracExp (ip : ℚ) (cs : List Char) : Option (ℚ × List Char) :=
  let step1 : Option (ℚ × List Char) :=
    match cs with
    | '.' :: r =>
      let ds := r.takeWhile Char.isDigit
      if ds.isEmpty then none
      else some (ip + (digitsVal ds : ℚ) / ((10 : ℚ) ^ ds.length), r.dropWhile Char.isDigit)
    | _ => some (ip, cs)
  match step1 with
  | none => none
  | some (m, cs2) =>
    match cs2 with
    | e :: r =>
      if e = 'e' || e = 'E' then
        let (esgn, r2) : Bool × List Char :=
          match r with
          | '+' :: r3 => (true, r3)
          | '-' :: r3 => (false, r3)
          | _ => (true, r)
        let ds := r2.takeWhile Char.isDigit
        if ds.isEmpty then none
        else
          let p : ℚ := (10 : ℚ) ^ digitsVal ds
          some (m * (if esgn then p else 1 / p), r2.dropWhile Char.isDigit)
      else some (m, cs2)
    | [] => some (m, [])

/-- A JSON number per the strict JSON grammar (no leading `+`, no leading
zeros, no bare `.5`). -/
def jsonNumber (cs : List Char) : Option (ℚ × List Char) :=
  let (neg, cs1) : Bool × List Char :=
    match cs with
    | '-' :: r => (true, r)
    | _ => (false, cs)
  match cs1 with
  | [] => none
  | '0' :: r =>
    if (match r with | d :: _ => d.isDigit | [] => false) then none
    else (jsonFracExp 0 r).map (fun p => (if neg then -p.1 else p.1, p.2))
  | c :: _ =>
    if c.isDigit then
      let ds := cs1.takeWhile Char.isDigit
      (jsonFracExp (digitsVal ds : ℚ) (cs1.dropWhile Char.isDigit)).map
        (fun p => (if neg then -p.1 else p.1, p.2))
    else none

mutual

/-- A JSON value (leading whitespace allowed), fuel-bounded; `jsonParse`
supplies ample fuel.  Mirrors `JSON.parse`: objects keep every member in
order (`getField` then reads the last duplicate, as JS does). -/
def jsonValue : Nat → List Char → Option (JSValue × List Char)
  | 0, _ => none
  | fuel + 1, cs0 =>
    let cs := cs0.dropWhile isJsonWs
    match cs with
    | [] => none
    | '"' :: rest => (jsonStringBody (rest.length + 1) [] rest).map (fun p => (.str p.1, p.2))
    | '[' :: rest =>
      let rest2 := rest.dropWhile isJsonWs
      match rest2 with
      | ']' :: rest3 => some (.arr [], rest3)
      | _ => jsonElements fuel rest []
    | c :: rest =>
      if c = obrace then
        let rest2 := rest.dropWhile isJsonWs
        match rest2 with
        | d :: rest3 => if d = cbrace then some (.obj [], rest3) else jsonMembers fuel rest []
        | [] => none
      else if c = 't' then
        if List.isPrefixOf ['r', 'u', 'e'] rest then some (.bool true, rest.drop 3) else none
      else if c = 'f' then
        if List.isPrefixOf ['a', 'l', 's', 'e'] rest then some (.bool false, rest.drop 4) else none
      else if c = 'n' then
        if List.isPrefixOf ['u', 'l', 'l'] rest then some (.nullv, rest.drop 3) else none
      else if c = '-' || c.isDigit then
        (jsonNumber cs).map (fun p => (.num p.1, p.2))
      else none

/-- Members of a JSON object after its opening brace (at least one). -/
def jsonMembers : Nat → List Char → List (String × JSValue) → Option (JSValue × List Char)
  | 0, _, _ => none
  | fuel + 1, cs0, acc =>
    let cs := cs0.dropWhile isJsonWs
    match cs with
    | '"' :: rest =>
      match jsonStringBody (rest.length + 1) [] rest with
      | none => none
      | some (k, rest2) =>
        let rest3 := rest2.dropWhile isJsonWs
        match rest3 with
        | ':' :: rest4 =>
          match jsonValue fuel rest4 with
          | none => none
          | some (v, rest5) =>
            let rest6 := rest5.dropWhile isJsonWs
            match rest6 with
            | [] => none
            | d :: rest7 =>
              if d = ',' then jsonMembers fuel rest7 (acc ++ [(k, v)])
              else if d = cbrace then some (.obj (acc ++ [(k, v)]), rest7)
              else none
        | _ => none
    | _ => none

/-- Elements of a JSON array after its opening bracket (at least one). -/
def jsonElements : Nat → List Char → List JSValue → Option (JSValue × List Char)
  | 0, _, _ => none
  | fuel + 1, cs, acc =>
    match jsonValue fuel cs with
    | none => none
    | some (v, rest) =>
      let rest2 := rest.dropWhile isJsonWs
      match rest2 with
      | ',' :: rest3 => jsonElements fuel rest3 (acc ++ [v])
      | ']' :: rest3 => some (.arr (acc ++ [v]), rest3)
      | _ => none

end

/-- `JSON.parse`: a single JSON value surrounded only by whitespace;
`none` models the thrown `SyntaxError` (which the source catches). -/
def jsonParse (s : String) : Option JSValue :=
  match jsonValue (2 * s.data.length + 2) s.data with
  | some (v, rest) => if (rest.dropWhile isJsonWs).isEmpty then some v else none
  | none => none

/-- Length of the leading run of characters other than the two braces,
for the regex class excluding braces. -/
def takeNonBrace (cs : List Char) : Nat :=
  (cs.takeWhile (fun c => !(c = obrace || c = cbrace))).length

/-- Length of the leading run of whitespace characters. -/
def countWsChars (cs : List Char) : Nat :=
  (cs.takeWhile isJsWs).length

/-- Matcher for the tail of the source's visualization regex after its
opening brace: a run of non-brace characters, any number of one-level
brace groups each followed by non-brace characters, then the closing
brace.  The regex engine's greedy matching of this pattern is
deterministic (each character class is maximal-munch and backtracking
cannot recover), so this scanner is exact.  Returns the matched length
including the closing brace. -/
def matchBody : Nat → List Char → Option Nat
  | 0, _ => none
  | fuel + 1, cs =>
    let n1 := takeNonBrace cs
    match cs.drop n1 with
    | [] => none
    | c :: rest =>
      if c = cbrace then some (n1 + 1)
      else
        let n2 := takeNonBrace rest
        match rest.drop n2 with
        | [] => none
        | d :: rest2 =>
          if d = cbrace then (matchBody fuel rest2).map (fun m => n1 + 1 + n2 + 1 + m)
          else none

/-- The literal head of the source's regex: the quoted key. -/
def vizKeyPat : List Char := '"' :: ("visualization".data ++ ['"'])

/-- Attempt to match the source's visualization regex at the head of the
input; returns the match length. -/
def matchVizAt (cs : List Char) : Option Nat :=
  if List.isPrefixOf vizKeyPat cs then
    let cs1 := cs.drop vizKeyPat.length
    let w1 := countWsChars cs1
    match cs1.drop w1 with
    | ':' :: cs2 =>
      let w2 := countWsChars cs2
      match cs2.drop w2 with
      | [] => none
      | c :: cs3 =>
        if c = obrace then
          (matchBody (cs3.length + 1) cs3).map
            (fun m => vizKeyPat.length + w1 + 1 + w2 + 1 + m)
        else none
    | _ => none
  else none

/-- Leftmost match, as `String.prototype.match` without the global flag. -/
def jsonMatchFrom : List Char → Option (List Char)
  | [] => none
  | c :: cs =>
    match matchVizAt (c :: cs) with
    | some len => some ((c :: cs).take len)
    | none => jsonMatchFrom cs

/-- The source's `content.match(/"visualization"\s*:\s*.../)`, reduced to
its only used component, the full match text. -/
def jsonMatch (s : String) : Option String :=
  (jsonMatchFrom s.data).map String.mk

/-- The `VisualizationData` interface.  Every field is optional and
unvalidated at runtime, so each is an arbitrary `JSValue` with `undefined`
standing for an absent property. -/
structure VisualizationData where
  type : JSValue := .undefined
  chart_type : JSValue := .undefined
  x_column : JSValue := .undefined
  y_column : JSValue := .undefined
  title : JSValue := .undefined
  text : JSValue := .undefined
  spec : JSValue := .undefined
  data_summary : JSValue := .undefined
  image : JSValue := .undefined
  mimeType : JSValue := .undefined

/-- Resolution `data.chart_type || data.spec?.chart_type || "bar"` from the
top of `ChartVisualization`. -/
def resolvedChartType (data : VisualizationData) : JSValue :=
  jsOr data.chart_type (jsOr (getField data.spec "chart_type") (.str "bar"))

/-- Resolution `data.x_column || data.spec?.x_column || "x"`. -/
def resolvedXColumn (data : VisualizationData) : JSValue :=
  jsOr data.x_column (jsOr (getField data.spec "x_column") (.str "x"))

/-- Resolution `data.y_column || data.spec?.y_column || "y"`. -/
def resolvedYColumn (data : VisualizationData) : JSValue :=
  jsOr data.y_column (jsOr (getField data.spec "y_column") (.str "y"))

/-- Resolution `data.title || data.spec?.title || "Chart"`. -/
def resolvedTitle (data : VisualizationData) : JSValue :=
  jsOr data.title (jsOr (getField data.spec "title") (.str "Chart"))

/-- The plotting geometry selected by the `switch (chartType)` in
`ChartVisualization`.  The pie case carries the aggregated
name/value pairs; the default case is the visible placeholder whose text
is "Unsupported chart type: " followed by the chart type. -/
inductive ChartGeom where
  | bar : JSValue → JSValue → ChartGeom
  | line : JSValue → JSValue → ChartGeom
  | pie : List (String × JSValue) → ChartGeom
  | scatter : JSValue → JSValue → ChartGeom
  | unsupported : JSValue → ChartGeom

/-- Outcome of `ChartVisualization`: the early "No data available for
chart." card, or a titled card around the selected geometry. -/
inductive ChartRender where
  | noData : ChartRender
  | rendered : JSValue → ChartGeom → ChartRender

/-- One pie slice per row: `name: String(item[xColumn] || "Unknown")`,
`value: Number(item[yColumn] || 0)` — note `||`, not `??`. -/
def pieSlice (xColumn yColumn : JSValue) (item : JSValue) : String × JSValue :=
  (jsToString (jsOr (getField item (propKey xColumn)) (.str "Unknown")),
   jsToNumber (jsOr (getField item (propKey yColumn)) (.num 0)))

/-- The `ChartVisualization` component: resolves chart type, columns and
title (top-level field, then `spec` field, then hardcoded default),
returns the no-data card on an empty `chartData`, otherwise dispatches on
the resolved chart type. -/
def ChartVisualization (data : VisualizationData) (chartData : List JSValue) : ChartRender :=
  let chartType := resolvedChartType data
  let xColumn := resolvedXColumn data
  let yColumn := resolvedYColumn data
  let title := resolvedTitle data
  if chartData.isEmpty then .noData
  else
    .rendered title
      (if jsEqStr chartType "bar" then .bar xColumn yColumn
       else if jsEqStr chartType "line" then .line xColumn yColumn
       else if jsEqStr chartType "pie" then .pie (chartData.map (pieSlice xColumn yColumn))
       else if jsEqStr chartType "scatter" then .scatter xColumn yColumn
       else .unsupported chartType)

/-- The rendered image element: its `src` URL and the optional title
heading (shown only when `data.title` is truthy). -/
structure ImageRender where
  url : String
  title : Option JSValue

/-- The `ImageVisualization` component: `null` when `data.image` is falsy;
otherwise the URL is the image string itself when it starts with "data:",
else a data URL assembled from `data.mimeType || "image/png"` and the
image string.  (JS would throw on a truthy non-string `image` at
`.startsWith`; string coercion stands in for that unreachable-by-claims
corner.) -/
def ImageVisualization (data : VisualizationData) : Option ImageRender :=
  if truthy data.image then
    let s := jsToString data.image
    some
      { url :=
          if s.startsWith "data:" then s
          else "data:" ++ jsToString (jsOr data.mimeType (.str "image/png")) ++ ";base64," ++ s,
        title := if truthy data.title then some data.title else none }
  else none

/-- The rendered preformatted text block plus its optional title heading. -/
structure TextRender where
  text : JSValue
  title : Option JSValue

/-- The `TextVisualization` component: `null` when `data.text` is falsy. -/
def TextVisualization (data : VisualizationData) : Option TextRender :=
  if truthy data.text then
    some { text := data.text, title := if truthy data.title then some data.title else none }
  else none

/-- The render plan produced by the `Visualization` dispatcher: which
sub-renderer ran (with its result), or `nullPlan` for the bare
`return null`. -/
inductive RenderPlan where
  | imagePlan : Option ImageRender → RenderPlan
  | chartPlan : List JSValue → ChartRender → RenderPlan
  | textPlan : Option TextRender → RenderPlan
  | nullPlan : RenderPlan

/-- First chart-data fallback (authoritative rows): guarded by
`xColumn && yColumn && sqlResult`, filters out rows whose x or y entry is
loosely null, and maps each survivor to a two-key object whose y entry is
`Number(row[yColumn]) || 0`.  Empty both when the guard fails and when
every row is filtered out. -/
def authData (data : VisualizationData) (sqlResult : Option (List JSValue)) : List JSValue :=
  let xColumn := jsOr data.x_column (getField data.spec "x_column")
  let yColumn := jsOr data.y_column (getField data.spec "y_column")
  match sqlResult with
  | some rows =>
    if truthy xColumn && truthy yColumn then
      (rows.filter fun row =>
          jsNonNull (getField row (propKey xColumn)) &&
          jsNonNull (getField row (propKey yColumn))).map
        fun row =>
          .obj [(propKey xColumn, getField row (propKey xColumn)),
                (propKey yColumn, jsOr (jsToNumber (getField row (propKey yColumn))) (.num 0))]
    else []
  | none => []

/-- Second chart-data fallback (synthetic reconstruction from the
summary): guarded by the truthiness of `data.data_summary?.x_data_sample`;
one row per sample element, keyed by the "x"/"y"-defaulted column
resolutions, with y drawn as
`yAvg + (Math.random() - 0.5) * (yRange[1] - yRange[0]) * 0.3`.
`rand idx` is the draw of the call made for sample index `idx`.  (A truthy
non-array sample would make JS throw at `.forEach`; it contributes no
rows here and appears in no claim.) -/
def synthData (rand : Nat → ℚ) (data : VisualizationData) : List JSValue :=
  if truthy (getField data.data_summary "x_data_sample") then
    let xSample := jsOr (getField data.data_summary "x_data_sample") (.arr [])
    let yRange := jsOr (getField data.data_summary "y_range") (.arr [.num 0, .num 100])
    let yAvg := jsOr (getField data.data_summary "y_average") (.num 50)
    let elems := match xSample with | .arr xs => xs | _ => []
    elems.enum.map fun p =>
      .obj [(propKey (resolvedXColumn data), p.2),
            (propKey (resolvedYColumn data),
             jsAdd yAvg
               (jsMul
                 (jsMul (jsSub (.num (rand p.1)) (.num (1 / 2)))
                   (jsSub (jsIndex yRange 1) (jsIndex yRange 0)))
                 (.num (3 / 10))))]
  else []

/-- The chart rows the chart branch of `Visualization` ends up plotting:
the authoritative rows when nonempty, else the synthetic rows when their
guard holds, else none (and the branch falls through). -/
def chartBranchData (rand : Nat → ℚ) (data : VisualizationData)
    (sqlResult : Option (List JSValue)) : List JSValue :=
  let a := authData data sqlResult
  if a.isEmpty then synthData rand data else a

/-- Truthiness-and-length guard `sqlResult && sqlResult.length > 0`. -/
def sqlNonempty (sqlResult : Option (List JSValue)) : Bool :=
  match sqlResult with
  | some l => !l.isEmpty
  | none => false

/-- The trailing text check shared by the fall-through paths of
`Visualization`. -/
def textOrNull (vizType : JSValue) (data : VisualizationData) : RenderPlan :=
  if jsEqStr vizType "text" || truthy data.text then .textPlan (TextVisualization data)
  else .nullPlan

/-- The `Visualization` dispatcher.  `data = none` models the component
receiving a null descriptor (`if (!data) return null`); `rand` is the
`Math.random()` stream consumed by the synthetic fallback. -/
def Visualization (rand : Nat → ℚ) (data : Option VisualizationData)
    (sqlResult : Option (List JSValue)) : RenderPlan :=
  match data with
  | none => .nullPlan
  | some data =>
    let vizType := jsOr data.type (.str "text")
    if jsEqStr vizType "image" || truthy data.image then
      .imagePlan (ImageVisualization data)
    else if jsEqStr vizType "chart" || (truthy data.chart_type && sqlNonempty sqlResult) then
      let cd := chartBranchData rand data sqlResult
      if cd.isEmpty then textOrNull vizType data
      else .chartPlan cd (ChartVisualization data cd)
    else textOrNull vizType data

/-- The extractor's return shape: the descriptor (typed nullable in the
source, though no branch returns null) and the optional row array. -/
structure ExtractResult where
  visualization : Option VisualizationData
  sqlResult : Option (List JSValue)

/-- The row lookup `state?.final_response?.sql?.result || state?.sql_result`. -/
def sqlLookup (state : JSValue) : JSValue :=
  jsOr (getField (getField (getField state "final_response") "sql") "result")
    (getField state "sql_result")

/-- The state lookup `state?.final_response?.visualization ||
state?.visualization || state?.guarded_visualization`. -/
def stateVizLookup (state : JSValue) : JSValue :=
  jsOr (getField (getField state "final_response") "visualization")
    (jsOr (getField state "visualization") (getField state "guarded_visualization"))

/-- Normalization of a found visualization object into the canonical
descriptor.  The state branch and the content branch of the source build
field-for-field identical object literals, so both share this definition.
Note the source resolves `chart_type`, `x_column` and `y_column`
spec-field first (`viz.spec?.chart_type || viz.chart_type || "bar"`), but
`title` top-level first. -/
def normalizeViz (viz : JSValue) : VisualizationData :=
  { type := jsOr (getField viz "type") (.str "chart"),
    chart_type := jsOr (getField (getField viz "spec") "chart_type")
      (jsOr (getField viz "chart_type") (.str "bar")),
    x_column := jsOr (getField (getField viz "spec") "x_column") (getField viz "x_column"),
    y_column := jsOr (getField (getField viz "spec") "y_column") (getField viz "y_column"),
    title := jsOr (getField viz "title") (jsOr (getField (getField viz "spec") "title") (.str "Chart")),
    spec := getField viz "spec",
    data_summary := getField viz "data_summary",
    image := getField viz "image",
    mimeType := getField viz "mimeType",
    text := getField viz "text" }

/-- `Array.isArray(v) ? v : undefined`. -/
def arrayOrNone (v : JSValue) : Option (List JSValue) :=
  match v with
  | .arr xs => some xs
  | _ => none

/-- Step 2 of the extractor: for string content, the regex match, the
isolated `JSON.parse` of the brace-wrapped fragment (a thrown parse error
is caught and swallowed, modelled by `none`), and the truthiness check of
`parsed.visualization`.  `some viz` is the found visualization object. -/
def contentVizSource (content : JSValue) : Option JSValue :=
  match content with
  | .str s =>
    match jsonMatch s with
    | some frag =>
      match jsonParse ("\x7b" ++ frag ++ "\x7d") with
      | some parsed =>
        if truthy (getField parsed "visualization") then some (getField parsed "visualization")
        else none
      | none => none
    | none => none
  | _ => none

/-- The default descriptor of the extractor's step 3. -/
def defaultViz : VisualizationData :=
  { type := .str "chart", chart_type := .str "bar", title := .str "Chart" }

/-- The `extractVisualizationData` utility: structured state first, then
embedded JSON in string content, then the default; rows come from the
sql-result state paths, kept only when they form an actual array. -/
def extractVisualizationData (content : JSValue) (state : JSValue) : ExtractResult :=
  let sqlResult := sqlLookup state
  let stateViz := stateVizLookup state
  if truthy stateViz then
    { visualization := some (normalizeViz stateViz), sqlResult := arrayOrNone sqlResult }
  else
    match contentVizSource content with
    | some viz => { visualization := some (normalizeViz viz), sqlResult := none }
    | none => { visualization := some defaultViz, sqlResult := arrayOrNone sqlResult }

/-! Claim theorems. -/

section Claims

/-- Concrete fully-populated visualization object for the round-trip check. -/
def c4viz : JSValue :=
  .obj [("type", .str "chart"), ("chart_type", .str "line"), ("x_column", .str "month"),
        ("y_column", .str "sales"), ("title", .str "Revenue")]

/-- Concrete state wrapping `c4viz`. -/
def c4state : JSValue := .obj [("visualization", c4viz)]

/-- Concrete row set for the round-trip check. -/
def c4rows : List JSValue :=
  [.obj [("month", .str "Jan"), ("sales", .num 10)],
   .obj [("month", .str "Feb"), ("sales", .num 20)]]

/-- Chart rows the dispatcher resolves from `c4rows`. -/
def c4chartData : List JSValue :=
  [.obj [("month", .str "Jan"), ("sales", .num 10)],
   .obj [("month", .str "Feb"), ("sales", .num 20)]]

/-- C4: extracting from a state whose visualization object is
`{type:"chart", chart_type:"line", x_column:"month", y_column:"sales",
title:"Revenue"}` and rendering the resulting descriptor against rows
`[{month:"Jan",sales:10},{month:"Feb",sales:20}]` selects the line-chart
geometry with exactly 2 data points whose y values are 10 and 20. -/
theorem c4_roundtrip (rand : Nat → ℚ) :
    Visualization rand (extractVisualizationData (JSValue.str "") c4state).visualization
        (some c4rows) =
      .chartPlan c4chartData
        (.rendered (JSValue.str "Revenue") (.line (JSValue.str "month") (JSValue.str "sales"))) ∧
    c4chartData.length = 2 ∧
    c4chartData.map (fun r => getField r "sales") = [JSValue.num 10, JSValue.num 20] :=
  ⟨rfl, rfl, rfl⟩

/-- C6: a non-empty image field forces the image path regardless of kind,
and the rendered URL is the image string unchanged when it starts with
"data:", else "data:" plus the mime type (default image/png) plus
";base64," plus the image string. -/
theorem c6_image_precedence (rand : Nat → ℚ) (data : VisualizationData)
    (sqlResult : Option (List JSValue)) (himg : truthy data.image = true) :
    Visualization rand (some data) sqlResult = .imagePlan (ImageVisualization data) ∧
    ∃ r, ImageVisualization data = some r ∧
      ((jsToString data.image).startsWith "data:" = true → r.url = jsToString data.image) ∧
      ((jsToString data.image).startsWith "data:" = false →
        r.url = "data:" ++ jsToString (jsOr data.mimeType (JSValue.str "image/png")) ++
          ";base64," ++ jsToString data.image) := by
  constructor
  · simp [Visualization, himg]
  · unfold ImageVisualization
    rw [if_pos himg]
    refine ⟨_, rfl, fun hs => ?_, fun hs => ?_⟩
    · simp [hs]
    · simp [hs]

/-- Witness for C6 on the spec's example: descriptor with kind text, image
"abc123", mimeType "image/png". -/
theorem c6_image_precedence_witness :
    (Visualization (fun _ => 0)
        (some { type := JSValue.str "text", image := JSValue.str "abc123",
                mimeType := JSValue.str "image/png" }) none =
      .imagePlan (ImageVisualization
        { type := JSValue.str "text", image := JSValue.str "abc123",
          mimeType := JSValue.str "image/png" })) ∧
    (∃ r, ImageVisualization
        { type := JSValue.str "text", image := JSValue.str "abc123",
          mimeType := JSValue.str "image/png" } = some r ∧
      ((jsToString (JSValue.str "abc123")).startsWith "data:" = true →
        r.url = jsToString (JSValue.str "abc123")) ∧
      ((jsToString (JSValue.str "abc123")).startsWith "data:" = false →
        r.url = "data:" ++ jsToString (jsOr (JSValue.str "image/png") (JSValue.str "image/png")) ++
          ";base64," ++ jsToString (JSValue.str "abc123"))) :=
  c6_image_precedence (fun _ => 0)
    { type := JSValue.str "text", image := JSValue.str "abc123",
      mimeType := JSValue.str "image/png" } none rfl

/-- C8: an unrecognized resolved chart type with non-empty chart rows
renders the visible unsupported-chart-type placeholder, not an error and
not a silent no-op. -/
theorem c8_unsupported (data : VisualizationData) (chartData : List JSValue)
    (hne : chartData.isEmpty = false)
    (h1 : jsEqStr (resolvedChartType data) "bar" = false)
    (h2 : jsEqStr (resolvedChartType data) "line" = false)
    (h3 : jsEqStr (resolvedChartType data) "pie" = false)
    (h4 : jsEqStr (resolvedChartType data) "scatter" = false) :
    ChartVisualization data chartData =
      .rendered (resolvedTitle data) (.unsupported (resolvedChartType data)) := by
  simp [ChartVisualization, hne, h1, h2, h3, h4]

/-- Witness for C8 with chart type "radar" and one row. -/
theorem c8_unsupported_witness :
    ChartVisualization { type := JSValue.str "chart", chart_type := JSValue.str "radar" }
        [JSValue.obj [("x", JSValue.num 1)]] =
      .rendered (resolvedTitle { type := JSValue.str "chart", chart_type := JSValue.str "radar" })
        (.unsupported (resolvedChartType
          { type := JSValue.str "chart", chart_type := JSValue.str "radar" })) :=
  c8_unsupported { type := JSValue.str "chart", chart_type := JSValue.str "radar" }
    [JSValue.obj [("x", JSValue.num 1)]] rfl rfl rfl rfl rfl

/-- C10: a descriptor with absent kind, falsy image, and chart-branch
condition not met is handled by the text path: the text block is rendered
exactly when the text field is truthy (non-empty), and nothing otherwise;
no unrecognized-kind error exists. -/
theorem c10_text_default (rand : Nat → ℚ) (data : VisualizationData)
    (sqlResult : Option (List JSValue))
    (hkind : data.type = JSValue.undefined)
    (himg : truthy data.image = false)
    (hchart : (truthy data.chart_type && sqlNonempty sqlResult) = false) :
    Visualization rand (some data) sqlResult = .textPlan (TextVisualization data) ∧
    (truthy data.text = true →
      TextVisualization data =
        some { text := data.text,
               title := if truthy data.title then some data.title else none }) ∧
    (truthy data.text = false → TextVisualization data = none) := by
  have hv : jsOr data.type (JSValue.str "text") = JSValue.str "text" := by rw [hkind]; rfl
  refine ⟨?_, fun ht => ?_, fun ht => ?_⟩
  · simp [Visualization, hv, himg, hchart, textOrNull, jsEqStr]
  · simp [TextVisualization, ht]
  · simp [TextVisualization, ht]

/-- Witness for C10: kindless descriptor with text "hi". -/
theorem c10_text_default_witness :
    Visualization (fun _ => 0) (some { text := JSValue.str "hi" }) none =
      .textPlan (TextVisualization { text := JSValue.str "hi" }) ∧
    (truthy (JSValue.str "hi") = true →
      TextVisualization ({ text := JSValue.str "hi" } : VisualizationData) =
        some { text := JSValue.str "hi",
               title := if truthy JSValue.undefined then some JSValue.undefined else none }) ∧
    (truthy (JSValue.str "hi") = false →
      TextVisualization ({ text := JSValue.str "hi" } : VisualizationData) = none) :=
  c10_text_default (fun _ => 0) { text := JSValue.str "hi" } none rfl rfl rfl

/-- C3 counterexample: a chart-kind descriptor whose x column is
unresolved, with non-empty rows and no summary, but with non-empty text,
renders the text path — not the null plan the claim requires for every
chart-kind descriptor whose chart-data fallbacks are empty. -/
theorem c3_counterexample :
    Visualization (fun _ => 0)
        (some { type := JSValue.str "chart", y_column := JSValue.str "v",
                text := JSValue.str "fallback" })
        (some [JSValue.obj [("v", JSValue.num 5)]]) =
      .textPlan (some { text := JSValue.str "fallback", title := none }) ∧
    RenderPlan.textPlan (some { text := JSValue.str "fallback", title := none }) ≠
      RenderPlan.nullPlan :=
  ⟨rfl, fun h => RenderPlan.noConfusion h⟩

/-- C3 amended: a chart-kind descriptor with falsy image and falsy text,
for which both chart-data fallbacks yield no rows, produces the null
render plan. -/
theorem c3_amended (rand : Nat → ℚ) (data : VisualizationData)
    (sqlResult : Option (List JSValue))
    (hkind : data.type = JSValue.str "chart")
    (himg : truthy data.image = false)
    (htext : truthy data.text = false)
    (hcd : chartBranchData rand data sqlResult = []) :
    Visualization rand (some data) sqlResult = .nullPlan := by
  have hv : jsOr data.type (JSValue.str "text") = JSValue.str "chart" := by rw [hkind]; rfl
  simp [Visualization, hv, himg, htext, hcd, textOrNull, jsEqStr]

/-- Witness for C3 amended: chart kind, y column only, non-empty rows, no
summary, no text. -/
theorem c3_amended_witness :
    Visualization (fun _ => 0)
        (some { type := JSValue.str "chart", y_column := JSValue.str "v" })
        (some [JSValue.obj [("v", JSValue.num 5)]]) = .nullPlan :=
  c3_amended (fun _ => 0) { type := JSValue.str "chart", y_column := JSValue.str "v" }
    (some [JSValue.obj [("v", JSValue.num 5)]]) rfl rfl rfl rfl

end Claims

section Claims2

/-- C1 counterexample: with top-level `chart_type:"line"` and
`spec.chart_type:"pie"` both present, the extractor's normalization puts
the spec value "pie" — not the top-level "line" the claim requires — into
the resulting descriptor. -/
theorem c1_counterexample :
    (extractVisualizationData (JSValue.str "")
        (JSValue.obj [("visualization",
          JSValue.obj [("chart_type", JSValue.str "line"),
            ("spec", JSValue.obj [("chart_type", JSValue.str "pie")])])])).visualization.map
        VisualizationData.chart_type = some (JSValue.str "pie") ∧
    JSValue.str "pie" ≠ JSValue.str "line" := by
  refine ⟨rfl, fun h => ?_⟩
  injection h with h2
  exact absurd h2 (by decide)

/-- C1 amended: the chart renderer resolves every field top-level first
(top-level field, then `spec` field, then default), but the extractor's
normalization resolves `chart_type`, `x_column` and `y_column` spec-field
first — a truthy `spec` value wins there even against a conflicting
top-level value — while `title` alone is resolved top-level first. -/
theorem c1_amended (content state : JSValue) (d : VisualizationData) (data : VisualizationData)
    (hviz : truthy (stateVizLookup state) = true)
    (hd : (extractVisualizationData content state).visualization = some d)
    (hsct : truthy (getField (getField (stateVizLookup state) "spec") "chart_type") = true)
    (hsx : truthy (getField (getField (stateVizLookup state) "spec") "x_column") = true)
    (hsy : truthy (getField (getField (stateVizLookup state) "spec") "y_column") = true)
    (htt : truthy (getField (stateVizLookup state) "title") = true)
    (hdc : truthy data.chart_type = true) (hdx : truthy data.x_column = true)
    (hdy : truthy data.y_column = true) (hdt : truthy data.title = true) :
    (d.chart_type = getField (getField (stateVizLookup state) "spec") "chart_type" ∧
     d.x_column = getField (getField (stateVizLookup state) "spec") "x_column" ∧
     d.y_column = getField (getField (stateVizLookup state) "spec") "y_column" ∧
     d.title = getField (stateVizLookup state) "title") ∧
    (resolvedChartType data = data.chart_type ∧ resolvedXColumn data = data.x_column ∧
     resolvedYColumn data = data.y_column ∧ resolvedTitle data = data.title) := by
  have hd2 : some (normalizeViz (stateVizLookup state)) = some d := by
    rw [← hd]
    simp [extractVisualizationData, hviz]
  have hd3 : normalizeViz (stateVizLookup state) = d := Option.some.inj hd2
  subst hd3
  refine ⟨⟨?_, ?_, ?_, ?_⟩, ?_, ?_, ?_, ?_⟩ <;>
    simp [normalizeViz, resolvedChartType, resolvedXColumn, resolvedYColumn, resolvedTitle,
      jsOr, hsct, hsx, hsy, htt, hdc, hdx, hdy, hdt]

/-- Witness state for C1: top-level and spec values conflict on every
field. -/
def c1wViz : JSValue :=
  .obj [("chart_type", .str "line"), ("x_column", .str "tx"), ("y_column", .str "ty"),
        ("title", .str "TopTitle"),
        ("spec", .obj [("chart_type", .str "pie"), ("x_column", .str "sx"),
          ("y_column", .str "sy"), ("title", .str "SpecTitle")])]

/-- Witness state object wrapping `c1wViz`. -/
def c1wState : JSValue := .obj [("visualization", c1wViz)]

/-- Witness descriptor for the renderer half of C1 amended. -/
def c1wData : VisualizationData :=
  { chart_type := .str "line", x_column := .str "tx", y_column := .str "ty",
    title := .str "TopTitle",
    spec := .obj [("chart_type", .str "pie"), ("x_column", .str "sx"),
      ("y_column", .str "sy"), ("title", .str "SpecTitle")] }

/-- Extracted descriptor the C1 witness passes for `d`. -/
def c1wD : VisualizationData :=
  { type := .str "chart", chart_type := .str "pie", x_column := .str "sx",
    y_column := .str "sy", title := .str "TopTitle",
    spec := .obj [("chart_type", .str "pie"), ("x_column", .str "sx"),
      ("y_column", .str "sy"), ("title", .str "SpecTitle")] }

/-- Witness for C1 amended at the conflicting concrete state. -/
theorem c1_amended_witness :
    (c1wD.chart_type = getField (getField (stateVizLookup c1wState) "spec") "chart_type" ∧
     c1wD.x_column = getField (getField (stateVizLookup c1wState) "spec") "x_column" ∧
     c1wD.y_column = getField (getField (stateVizLookup c1wState) "spec") "y_column" ∧
     c1wD.title = getField (stateVizLookup c1wState) "title") ∧
    (resolvedChartType c1wData = c1wData.chart_type ∧
     resolvedXColumn c1wData = c1wData.x_column ∧
     resolvedYColumn c1wData = c1wData.y_column ∧
     resolvedTitle c1wData = c1wData.title) :=
  c1_amended (JSValue.str "") c1wState c1wD c1wData rfl rfl rfl rfl rfl rfl rfl rfl rfl rfl

/-- C2 counterexample: a pie row whose x value is the number 0 — which is
neither null nor undefined — is mapped to the slice name "Unknown", not
to `String(0) = "0"` as the claim's null/undefined-only fallback
requires. -/
theorem c2_counterexample :
    ChartVisualization
        { type := JSValue.str "chart", chart_type := JSValue.str "pie",
          x_column := JSValue.str "cat", y_column := JSValue.str "v" }
        [JSValue.obj [("cat", JSValue.num 0), ("v", JSValue.num 5)]] =
      .rendered (JSValue.str "Chart") (.pie [("Unknown", JSValue.num 5)]) ∧
    jsNonNull (JSValue.num 0) = true ∧
    jsToString (JSValue.num 0) = "0" ∧
    ("Unknown" : String) ≠ "0" :=
  ⟨rfl, rfl, rfl, by decide⟩

/-- C2 amended: for a resolved pie chart every row maps to exactly one
slice `{name: String(xValue || "Unknown"), value: Number(yValue || 0)}` —
the fallbacks fire on every falsy value (null, undefined, 0, "", false,
NaN), not only on null/undefined — and rows with duplicate names are
never grouped or summed: the slice list has one entry per row. -/
theorem c2_amended (data : VisualizationData) (chartData : List JSValue)
    (hpie : resolvedChartType data = JSValue.str "pie")
    (hne : chartData.isEmpty = false) :
    ChartVisualization data chartData =
      .rendered (resolvedTitle data)
        (.pie (chartData.map (pieSlice (resolvedXColumn data) (resolvedYColumn data)))) ∧
    (chartData.map (pieSlice (resolvedXColumn data) (resolvedYColumn data))).length =
      chartData.length := by
  constructor
  · simp [ChartVisualization, hpie, hne, jsEqStr]
  · simp

/-- Witness descriptor for C2 amended. -/
def c2wData : VisualizationData :=
  { type := JSValue.str "chart", chart_type := JSValue.str "pie",
    x_column := JSValue.str "cat", y_column := JSValue.str "v" }

/-- Witness rows for C2 amended: two rows with the same category "A". -/
def c2wRows : List JSValue :=
  [JSValue.obj [("cat", JSValue.str "A"), ("v", JSValue.num 5)],
   JSValue.obj [("cat", JSValue.str "A"), ("v", JSValue.num 5)]]

/-- Witness for C2 amended on the spec's duplicate-name example, also
evaluating the mapped slices to the two separate "A" slices. -/
theorem c2_amended_witness :
    (ChartVisualization c2wData c2wRows =
      .rendered (resolvedTitle c2wData)
        (.pie (c2wRows.map (pieSlice (resolvedXColumn c2wData) (resolvedYColumn c2wData)))) ∧
     (c2wRows.map (pieSlice (resolvedXColumn c2wData) (resolvedYColumn c2wData))).length =
       c2wRows.length) ∧
    c2wRows.map (pieSlice (resolvedXColumn c2wData) (resolvedYColumn c2wData)) =
      [("A", JSValue.num 5), ("A", JSValue.num 5)] :=
  ⟨c2_amended c2wData c2wRows rfl rfl, rfl⟩

/-- C5: extraction is total (modelled as a total function, it can raise no
exception) and always yields a non-null descriptor; when neither the
structured state nor embedded JSON in the content yields a visualization
(a failed parse of the matched fragment is swallowed as `none`), the
result is the default descriptor `{type:"chart", chart_type:"bar",
title:"Chart"}` paired with rows from the state's sql-result paths when
they hold an array and none otherwise. -/
theorem c5_default (content state : JSValue)
    (hviz : truthy (stateVizLookup state) = false)
    (hcontent : contentVizSource content = none) :
    ((extractVisualizationData content state).visualization = some defaultViz ∧
     (extractVisualizationData content state).sqlResult = arrayOrNone (sqlLookup state)) ∧
    ∀ c s : JSValue, ((extractVisualizationData c s).visualization).isSome = true := by
  refine ⟨⟨?_, ?_⟩, ?_⟩
  · simp [extractVisualizationData, hviz, hcontent]
  · simp [extractVisualizationData, hviz, hcontent]
  · intro c s
    simp only [extractVisualizationData]
    split
    · rfl
    · split <;> rfl

/-- Witness for C5: plain text content and an undefined state. -/
theorem c5_default_witness :
    ((extractVisualizationData (JSValue.str "hello") JSValue.undefined).visualization =
        some defaultViz ∧
     (extractVisualizationData (JSValue.str "hello") JSValue.undefined).sqlResult =
       arrayOrNone (sqlLookup JSValue.undefined)) ∧
    ∀ c s : JSValue, ((extractVisualizationData c s).visualization).isSome = true :=
  c5_default (JSValue.str "hello") JSValue.undefined rfl rfl

end Claims2

section SynthHelpers

/-- Dispatcher reduction for the synthetic fallback: chart kind, falsy
image, empty authoritative rows, non-empty synthetic rows select the
chart plan carrying the synthetic rows. -/
theorem visualization_synth (rand : Nat → ℚ) (data : VisualizationData)
    (sqlResult : Option (List JSValue))
    (hkind : data.type = JSValue.str "chart")
    (himg : truthy data.image = false)
    (hauth : authData data sqlResult = [])
    (hsynth : (synthData rand data).isEmpty = false) :
    Visualization rand (some data) sqlResult =
      .chartPlan (synthData rand data) (ChartVisualization data (synthData rand data)) := by
  have hv : jsOr data.type (JSValue.str "text") = JSValue.str "chart" := by rw [hkind]; rfl
  have hcd : chartBranchData rand data sqlResult = synthData rand data := by
    simp [chartBranchData, hauth]
  simp [Visualization, hv, himg, jsEqStr, hcd, hsynth]

/-- Shape of the synthetic rows: one row per sample element, with the
y entry of row `k` equal to `yAvg + (rand k - 0.5) * (yR1 - yR0) * 0.3`. -/
theorem synthData_spec (rand : Nat → ℚ) (data : VisualizationData) (xs : List JSValue)
    (r0 r1 avg : ℚ)
    (hsum : getField data.data_summary "x_data_sample" = JSValue.arr xs)
    (hyr : jsOr (getField data.data_summary "y_range")
        (JSValue.arr [JSValue.num 0, JSValue.num 100]) =
      JSValue.arr [JSValue.num r0, JSValue.num r1])
    (hya : jsOr (getField data.data_summary "y_average") (JSValue.num 50) = JSValue.num avg) :
    (synthData rand data).length = xs.length ∧
    ∀ k, (hk : k < xs.length) →
      getField ((synthData rand data).getD k JSValue.undefined) (propKey (resolvedYColumn data)) =
        JSValue.num (avg + (rand k - 1 / 2) * (r1 - r0) * (3 / 10)) := by
  have hguard : truthy (getField data.data_summary "x_data_sample") = true := by
    rw [hsum]; rfl
  have hx : jsOr (getField data.data_summary "x_data_sample") (JSValue.arr []) =
      JSValue.arr xs := by
    rw [hsum]; rfl
  constructor
  · simp [synthData, hguard, hx, List.enum_length]
  · intro k hk
    simp only [synthData, hguard, if_true, hx, hyr, hya]
    rw [List.getD_eq_getElem?_getD, List.getElem?_map, List.getElem?_enum,
      List.getElem?_eq_getElem hk]
    simp [getField, lookupLast, jsAdd, jsMul, jsSub, jsIndex, jsToNumber, toPrimitive]

end SynthHelpers

section Claims3

/-- C7 amended: in the synthetic fallback, for a truthy (non-zero)
y-average a summary sample of n x-values yields exactly n synthesized
rows, row k's y value being exactly
`yAverage + (rand k - 0.5) * (yRange[1] - yRange[0]) * 0.3` with the
random draw in `[0,1)` (so the noise term lies in `[-0.5, 0.5)`), and for
a y-range `[r0, r1]` with `r0 ≤ r1` every y lies within
`[avg - (r1-r0)*0.15, avg + (r1-r0)*0.15]` — for sample `[1,2,3]`, range
`[0,10]`, average 5 this is 3 points, each y within `[3.5, 6.5]`.  A
falsy y-average (such as 0) is instead replaced by the default 50 via
`y_average || 50`; see the C7 counterexample. -/
theorem c7_synthetic (rand : Nat → ℚ) (data : VisualizationData)
    (sqlResult : Option (List JSValue)) (xs : List JSValue) (r0 r1 avg : ℚ)
    (hrand : ∀ i, 0 ≤ rand i ∧ rand i < 1)
    (hkind : data.type = JSValue.str "chart")
    (himg : truthy data.image = false)
    (hauth : authData data sqlResult = [])
    (hxs : xs ≠ [])
    (hsum : getField data.data_summary "x_data_sample" = JSValue.arr xs)
    (hyr0 : getField data.data_summary "y_range" = JSValue.arr [JSValue.num r0, JSValue.num r1])
    (hya0 : getField data.data_summary "y_average" = JSValue.num avg)
    (havg : avg ≠ 0) (hr01 : r0 ≤ r1) :
    Visualization rand (some data) sqlResult =
      .chartPlan (synthData rand data) (ChartVisualization data (synthData rand data)) ∧
    (synthData rand data).length = xs.length ∧
    (∀ k, (hk : k < xs.length) →
      getField ((synthData rand data).getD k JSValue.undefined) (propKey (resolvedYColumn data)) =
        JSValue.num (avg + (rand k - 1 / 2) * (r1 - r0) * (3 / 10))) ∧
    ∀ k, avg - (r1 - r0) * (3 / 20) ≤ avg + (rand k - 1 / 2) * (r1 - r0) * (3 / 10) ∧
      avg + (rand k - 1 / 2) * (r1 - r0) * (3 / 10) ≤ avg + (r1 - r0) * (3 / 20) := by
  have hyr : jsOr (getField data.data_summary "y_range")
      (JSValue.arr [JSValue.num 0, JSValue.num 100]) =
      JSValue.arr [JSValue.num r0, JSValue.num r1] := by
    rw [hyr0]; rfl
  have hya : jsOr (getField data.data_summary "y_average") (JSValue.num 50) =
      JSValue.num avg := by
    rw [hya0]; simp [jsOr, truthy, havg]
  obtain ⟨hlen, hval⟩ := synthData_spec rand data xs r0 r1 avg hsum hyr hya
  have hsynth : (synthData rand data).isEmpty = false := by
    rcases h : synthData rand data with _ | ⟨a, l⟩
    · rw [h] at hlen
      exact absurd (List.eq_nil_of_length_eq_zero (by simpa using hlen.symm)) hxs
    · rfl
  refine ⟨visualization_synth rand data sqlResult hkind himg hauth hsynth, hlen, hval, ?_⟩
  intro k
  obtain ⟨hlo, hhi⟩ := hrand k
  constructor
  · nlinarith [hlo, hhi, hr01]
  · nlinarith [hlo, hhi, hr01]

/-- Witness descriptor for C7: summary sample `[1,2,3]`, y-range `[0,10]`,
y-average 5. -/
def c7wData : VisualizationData :=
  { type := JSValue.str "chart",
    data_summary := JSValue.obj
      [("x_data_sample", JSValue.arr [JSValue.num 1, JSValue.num 2, JSValue.num 3]),
       ("y_range", JSValue.arr [JSValue.num 0, JSValue.num 10]),
       ("y_average", JSValue.num 5)] }

/-- Witness for C7 with the constant random stream 1/4. -/
theorem c7_synthetic_witness :
    Visualization (fun _ => (1 : ℚ) / 4) (some c7wData) none =
      .chartPlan (synthData (fun _ => (1 : ℚ) / 4) c7wData)
        (ChartVisualization c7wData (synthData (fun _ => (1 : ℚ) / 4) c7wData)) ∧
    (synthData (fun _ => (1 : ℚ) / 4) c7wData).length =
      ([JSValue.num 1, JSValue.num 2, JSValue.num 3] : List JSValue).length ∧
    (∀ k, (hk : k < ([JSValue.num 1, JSValue.num 2, JSValue.num 3] : List JSValue).length) →
      getField ((synthData (fun _ => (1 : ℚ) / 4) c7wData).getD k JSValue.undefined)
          (propKey (resolvedYColumn c7wData)) =
        JSValue.num (5 + ((1 : ℚ) / 4 - 1 / 2) * (10 - 0) * (3 / 10))) ∧
    ∀ _k : Nat, (5 : ℚ) - (10 - 0) * (3 / 20) ≤ 5 + ((1 : ℚ) / 4 - 1 / 2) * (10 - 0) * (3 / 10) ∧
      (5 : ℚ) + ((1 : ℚ) / 4 - 1 / 2) * (10 - 0) * (3 / 10) ≤ 5 + (10 - 0) * (3 / 20) :=
  c7_synthetic (fun _ => (1 : ℚ) / 4) c7wData none
    [JSValue.num 1, JSValue.num 2, JSValue.num 3] 0 10 5
    (fun _ => ⟨by norm_num, by norm_num⟩) rfl rfl rfl (List.cons_ne_nil _ _)
    rfl rfl rfl (by norm_num) (by norm_num)

/-- C9: in the synthetic fallback an absent y-range is treated as
`[0, 100]` and an absent y-average as 50: a summary holding only a
non-empty sample still synthesizes one row per sample value, each y equal
to `50 + (rand k - 0.5) * (100 - 0) * 0.3`, hence within `[35, 65)`. -/
theorem c9_synthetic_defaults (rand : Nat → ℚ) (data : VisualizationData)
    (sqlResult : Option (List JSValue)) (xs : List JSValue)
    (hrand : ∀ i, 0 ≤ rand i ∧ rand i < 1)
    (hkind : data.type = JSValue.str "chart")
    (himg : truthy data.image = false)
    (hauth : authData data sqlResult = [])
    (hxs : xs ≠ [])
    (hsum : getField data.data_summary "x_data_sample" = JSValue.arr xs)
    (hyr0 : getField data.data_summary "y_range" = JSValue.undefined)
    (hya0 : getField data.data_summary "y_average" = JSValue.undefined) :
    Visualization rand (some data) sqlResult =
      .chartPlan (synthData rand data) (ChartVisualization data (synthData rand data)) ∧
    (synthData rand data).length = xs.length ∧
    (∀ k, (hk : k < xs.length) →
      getField ((synthData rand data).getD k JSValue.undefined) (propKey (resolvedYColumn data)) =
        JSValue.num (50 + (rand k - 1 / 2) * (100 - 0) * (3 / 10))) ∧
    ∀ k, (35 : ℚ) ≤ 50 + (rand k - 1 / 2) * (100 - 0) * (3 / 10) ∧
      50 + (rand k - 1 / 2) * (100 - 0) * (3 / 10) < 65 := by
  have hyr : jsOr (getField data.data_summary "y_range")
      (JSValue.arr [JSValue.num 0, JSValue.num 100]) =
      JSValue.arr [JSValue.num 0, JSValue.num 100] := by
    rw [hyr0]; rfl
  have hya : jsOr (getField data.data_summary "y_average") (JSValue.num 50) =
      JSValue.num 50 := by
    rw [hya0]; rfl
  obtain ⟨hlen, hval⟩ := synthData_spec rand data xs 0 100 50 hsum hyr hya
  have hsynth : (synthData rand data).isEmpty = false := by
    rcases h : synthData rand data with _ | ⟨a, l⟩
    · rw [h] at hlen
      exact absurd (List.eq_nil_of_length_eq_zero (by simpa using hlen.symm)) hxs
    · rfl
  refine ⟨visualization_synth rand data sqlResult hkind himg hauth hsynth, hlen, hval, ?_⟩
  intro k
  obtain ⟨hlo, hhi⟩ := hrand k
  constructor
  · nlinarith [hlo, hhi]
  · nlinarith [hlo, hhi]

/-- Witness descriptor for C9: summary with only a two-element sample. -/
def c9wData : VisualizationData :=
  { type := JSValue.str "chart",
    data_summary := JSValue.obj
      [("x_data_sample", JSValue.arr [JSValue.str "a", JSValue.str "b"])] }

/-- Witness for C9 with the constant random stream 1/4. -/
theorem c9_synthetic_defaults_witness :
    Visualization (fun _ => (1 : ℚ) / 4) (some c9wData) none =
      .chartPlan (synthData (fun _ => (1 : ℚ) / 4) c9wData)
        (ChartVisualization c9wData (synthData (fun _ => (1 : ℚ) / 4) c9wData)) ∧
    (synthData (fun _ => (1 : ℚ) / 4) c9wData).length =
      ([JSValue.str "a", JSValue.str "b"] : List JSValue).length ∧
    (∀ k, (hk : k < ([JSValue.str "a", JSValue.str "b"] : List JSValue).length) →
      getField ((synthData (fun _ => (1 : ℚ) / 4) c9wData).getD k JSValue.undefined)
          (propKey (resolvedYColumn c9wData)) =
        JSValue.num (50 + ((1 : ℚ) / 4 - 1 / 2) * (100 - 0) * (3 / 10))) ∧
    ∀ _k : Nat, (35 : ℚ) ≤ 50 + ((1 : ℚ) / 4 - 1 / 2) * (100 - 0) * (3 / 10) ∧
      (50 : ℚ) + ((1 : ℚ) / 4 - 1 / 2) * (100 - 0) * (3 / 10) < 65 :=
  c9_synthetic_defaults (fun _ => (1 : ℚ) / 4) c9wData none
    [JSValue.str "a", JSValue.str "b"]
    (fun _ => ⟨by norm_num, by norm_num⟩) rfl rfl rfl (List.cons_ne_nil _ _) rfl rfl rfl

/-- Counterexample descriptor for C7: summary with sample `[1]`, y-range
`[0,10]` and `y_average = 0` — a value inside the claim's scope that the
source's `data.data_summary.y_average || 50` replaces by 50. -/
def c7cData : VisualizationData :=
  { type := JSValue.str "chart",
    data_summary := JSValue.obj
      [("x_data_sample", JSValue.arr [JSValue.num 1]),
       ("y_range", JSValue.arr [JSValue.num 0, JSValue.num 10]),
       ("y_average", JSValue.num 0)] }

/-- C7 counterexample: with `y_average = 0` in the summary, the synthetic
fallback's y value is `50 + (rand - 0.5) * (10 - 0) * 0.3` — here
`197/4` for the draw `1/4` — and not the claim's
`yAverage + (rand - 0.5) * (yRange[1] - yRange[0]) * 0.3 = -3/4`,
because the falsy average 0 is replaced by the default 50. -/
theorem c7_counterexample :
    Visualization (fun _ => (1 : ℚ) / 4) (some c7cData) none =
      .chartPlan (synthData (fun _ => (1 : ℚ) / 4) c7cData)
        (ChartVisualization c7cData (synthData (fun _ => (1 : ℚ) / 4) c7cData)) ∧
    getField ((synthData (fun _ => (1 : ℚ) / 4) c7cData).getD 0 JSValue.undefined)
        (propKey (resolvedYColumn c7cData)) =
      JSValue.num (50 + ((1 : ℚ) / 4 - 1 / 2) * (10 - 0) * (3 / 10)) ∧
    (50 + ((1 : ℚ) / 4 - 1 / 2) * (10 - 0) * (3 / 10) : ℚ) ≠
      0 + ((1 : ℚ) / 4 - 1 / 2) * (10 - 0) * (3 / 10) := by
  refine ⟨rfl, rfl, by norm_num⟩

end Claims3
